import Mathlib

/-!
Shallow embedding of the hospital-management-system backend route handlers:
appointment booking and status updates, login and bearer-token middleware
(custom-JWT and Supabase variants), patient provisioning with credential
issuance, diagnostic upload with its compensating delete, and the fee
revenue aggregator. Each definition is translated from the corresponding
JavaScript handler in the repository.
-/

namespace Hospital

/-- A JavaScript id value as it arrives in a request body, a URL parameter
or a database row: either a string or a number. -/
inductive JVal where
  | jstr (s : String)
  | jnum (n : Int)
deriving DecidableEq, Repr

/-- JavaScript `String(v)` applied to an id value. -/
def JVal.jsString : JVal → String
  | .jstr s => s
  | .jnum n => toString n

/-- JavaScript truthiness of an id value: `0` and `""` are falsy. -/
def JVal.truthy : JVal → Bool
  | .jstr s => s ≠ ""
  | .jnum n => n ≠ 0

/-- Truthiness of a possibly absent id (`undefined` and `null` are falsy). -/
def jvalTruthy : Option JVal → Bool
  | none => false
  | some v => v.truthy

/-- Truthiness of a possibly absent string field. -/
def strTruthy : Option String → Bool
  | none => false
  | some s => s ≠ ""

/-- JavaScript strict equality `a === b` between a nullable id and an id:
values of different runtime types are never strictly equal, and `null`
equals no id. -/
def strictEq : Option JVal → JVal → Bool
  | none, _ => false
  | some a, b => a = b

/-- An HTTP response produced by a route handler: an error with status code
and message, or a success with status code and payload. -/
inductive ApiRes (α : Type) where
  | err (status : Nat) (msg : String)
  | ok (status : Nat) (payload : α)
deriving DecidableEq, Repr

/-- The resolved request principal (`req.user`): role, and for patients the
id of their own patient record (`null` when no record is linked). -/
structure Principal where
  role : String
  patientId : Option JVal
deriving DecidableEq, Repr

/-- A row of the `appointments` table. -/
structure Appointment where
  id : Nat
  patient_id : JVal
  date : String
  time : String
  reason : Option String
  status : String
deriving DecidableEq, Repr

/-- The appointments store: current rows and the next auto-increment id. -/
structure ApptDb where
  rows : List Appointment
  nextId : Nat
deriving DecidableEq, Repr

/-- The JSON body of `POST /api/appointments`. -/
structure ApptBody where
  patient_id : Option JVal
  date : Option String
  time : Option String
  reason : Option String
deriving DecidableEq, Repr

/-- Target-patient resolution in `router.post('/')` of `routes/appointments.js`:
a patient principal always books for themselves (the body's `patient_id` is
not consulted); any other principal books for the body's `patient_id`. -/
def resolvePatientId (user : Principal) (body : ApptBody) : Option JVal :=
  if user.role = "patient" then user.patientId else body.patient_id

/-- The conflict query of the appointment-creation handler: does some row
have the identical date, identical time and status exactly `scheduled`. -/
def slotTaken (rows : List Appointment) (d t : String) : Bool :=
  (rows.find? (fun a => a.date = d && a.time = t && a.status = "scheduled")).isSome

/-- `router.post('/')` appointment creation (`routes/appointments.js`; the
Supabase variant implements the identical algorithm): require date and time,
resolve the target patient id, reject with 409 when a `scheduled` appointment
already occupies the (date, time) slot, otherwise insert a row with default
status `scheduled` and return the created record with 201. -/
def createAppointment (user : Principal) (body : ApptBody) (db : ApptDb) :
    ApiRes Appointment × ApptDb :=
  if !strTruthy body.date || !strTruthy body.time then
    (.err 400 "Date and time are required", db)
  else
    match resolvePatientId user body with
    | none => (.err 400 "Patient ID is required", db)
    | some pid =>
      if !pid.truthy then (.err 400 "Patient ID is required", db)
      else
        let d := body.date.getD ""
        let t := body.time.getD ""
        if slotTaken db.rows d t then
          (.err 409 "This time slot is already booked. Please choose a different time.", db)
        else
          let appt : Appointment :=
            { id := db.nextId, patient_id := pid, date := d, time := t,
              reason := body.reason, status := "scheduled" }
          (.ok 201 appt, { rows := db.rows ++ [appt], nextId := db.nextId + 1 })

/-- `router.put('/:id')` appointment status update (`routes/appointments.js`):
doctors only; the requested status must be one of `scheduled`, `completed`,
`cancelled` or the handler answers 400 before touching the store; otherwise
the matching row's status is updated and the row returned, 404 if absent. -/
def updateAppointmentStatus (user : Principal) (status? : Option String)
    (apptId : Nat) (db : ApptDb) : ApiRes Appointment × ApptDb :=
  if user.role ≠ "doctor" then (.err 403 "Access denied - Doctors only", db)
  else
    match status? with
    | none => (.err 400 "Invalid status", db)
    | some st =>
      if st ≠ "scheduled" ∧ st ≠ "completed" ∧ st ≠ "cancelled" then
        (.err 400 "Invalid status", db)
      else
        let rows := db.rows.map (fun a => if a.id = apptId then { a with status := st } else a)
        let db := { db with rows := rows }
        match rows.find? (fun a => a.id = apptId) with
        | none => (.err 404 "Appointment not found", db)
        | some a => (.ok 200 a, db)

/-- A row of the `fees` table (only the fields the revenue aggregator
reads). Amounts are exact decimals, modelled as rationals. -/
structure Fee where
  id : Nat
  patient_id : JVal
  amount : ℚ
  payment_status : String
deriving DecidableEq, Repr

/-- SQL `SELECT SUM(amount) FROM fees WHERE payment_status = st`: `NULL`
(here `none`) on an empty result set, otherwise the sum. -/
def sqlSumAmount (fees : List Fee) (st : String) : Option ℚ :=
  let xs := (fees.filter (fun f => f.payment_status = st)).map (fun f => f.amount)
  if xs.isEmpty then none else some xs.sum

/-- JavaScript `total || 0` applied to the possibly-`NULL` SQL sum: `null`,
`undefined` and `0` are all falsy and give `0`. -/
def jsOrZero : Option ℚ → ℚ
  | none => 0
  | some x => if x = 0 then 0 else x

/-- `router.get('/stats/revenue')` of the fees router: total of `paid`
amounts and total of `pending` amounts, each null-coalesced to `0`. -/
def revenueStats (fees : List Fee) : ℚ × ℚ :=
  (jsOrZero (sqlSumAmount fees "paid"), jsOrZero (sqlSumAmount fees "pending"))

/-- A stored credential: the model keeps the hashed plaintext and the bcrypt
work factor abstractly, standing for `bcrypt.hash(plain, cost)`. -/
inductive HashVal where
  | bcrypt (plain : String) (cost : Nat)
deriving DecidableEq, Repr

/-- `bcrypt.compare(plain, hash)`: true exactly when the hash was computed
from the same plaintext. -/
def bcryptCompare (p : String) (h : HashVal) : Bool :=
  match h with
  | .bcrypt plain _ => p = plain

/-- A row of the `users` table. -/
structure UserRow where
  id : Nat
  name : String
  email : String
  password : HashVal
  role : String
deriving DecidableEq, Repr

/-- A row of the `patients` table (the fields the modelled handlers read). -/
structure PatientRow where
  id : JVal
  user_id : Nat
  name : String
  phone : String
deriving DecidableEq, Repr

/-- JavaScript `phone.slice(-4)`: the last four characters, or the whole
string when it is shorter. -/
def sliceLast4 (phone : String) : String := phone.takeRight 4

/-- Default-password derivation of the add-patient handler:
`phone.slice(-4) + '123'`. -/
def derivePassword (phone : String) : String := sliceLast4 phone ++ "123"

/-- The JSON body of `POST /api/patients` (fields the handler validates). -/
structure AddPatientBody where
  name : Option String
  age : Option Int
  phone : Option String
  email : Option String
deriving DecidableEq, Repr

/-- Truthiness of the `age` field: `0`, `null` and `undefined` are falsy. -/
def intTruthy : Option Int → Bool
  | none => false
  | some n => n ≠ 0

/-- Account-email selection of the add-patient handler:
`email || phone + '@patient.com'`. -/
def chosenPatientEmail (body : AddPatientBody) : String :=
  if strTruthy body.email then body.email.getD ""
  else body.phone.getD "" ++ "@patient.com"

/-- The 201 payload of the add-patient handler: the created user row and the
issued `credentials` object (email and plaintext password). -/
structure AddPatientOut where
  userRow : UserRow
  credsEmail : String
  credsPassword : String
deriving DecidableEq, Repr

/-- `router.post('/')` add patient with credential issuance (credential-issuing
variant of the patients router): doctors only; name, age and phone required;
the account email defaults to `phone@patient.com`; the password is the last
four characters of the phone plus `123`, stored as its bcrypt hash with work
factor 10; a duplicate email makes the user insert fail with the unique
violation, answered as `Email already exists`. -/
def addPatient (users : List UserRow) (nextUserId : Nat) (user : Principal)
    (body : AddPatientBody) : ApiRes AddPatientOut × List UserRow :=
  if user.role ≠ "doctor" then (.err 403 "Access denied - Doctors only", users)
  else if !strTruthy body.name || !intTruthy body.age || !strTruthy body.phone then
    (.err 400 "Name, age, and phone are required", users)
  else
    let phone := body.phone.getD ""
    let patientEmail := chosenPatientEmail body
    let defaultPassword := derivePassword phone
    let hashedPassword := HashVal.bcrypt defaultPassword 10
    if users.any (fun u => u.email = patientEmail) then
      (.err 400 "Email already exists", users)
    else
      let newUser : UserRow :=
        { id := nextUserId, name := body.name.getD "", email := patientEmail,
          password := hashedPassword, role := "patient" }
      (.ok 201 { userRow := newUser, credsEmail := patientEmail,
                 credsPassword := defaultPassword }, users ++ [newUser])

/-- `router.post('/login')` of `routes/auth.js` (custom-JWT variant): email,
password and role are all required; the user is looked up by email AND role;
a missing match and a wrong password both answer 401 `Invalid credentials`;
on success the patient-record id is resolved for patient logins. -/
structure LoginOut where
  id : Nat
  name : String
  email : String
  role : String
  patientId : Option JVal
deriving DecidableEq, Repr

/-- The custom-JWT login handler. -/
def sqLogin (users : List UserRow) (patients : List PatientRow)
    (email? password? role? : Option String) : ApiRes LoginOut :=
  if !strTruthy email? || !strTruthy password? || !strTruthy role? then
    .err 400 "Email, password, and role are required"
  else
    let e := email?.getD ""
    let p := password?.getD ""
    let r := role?.getD ""
    match users.find? (fun u => u.email = e && u.role = r) with
    | none => .err 401 "Invalid credentials"
    | some u =>
      if !bcryptCompare p u.password then .err 401 "Invalid credentials"
      else
        let patientId :=
          if r = "patient" then (patients.find? (fun q => q.user_id = u.id)).map (fun q => q.id)
          else none
        .ok 200 { id := u.id, name := u.name, email := u.email, role := u.role,
                  patientId := patientId }

/-- `authenticateToken` of `routes/auth.js` (custom-JWT variant): 401 when no
token is present, 403 `Invalid or expired token` when `jwt.verify` rejects it,
otherwise the decoded principal is attached. `verify` abstracts
`jwt.verify(token, secret)`. -/
def jwtAuthenticate (verify : String → Option Principal) (token? : Option String) :
    Except (Nat × String) Principal :=
  if !strTruthy token? then .error (401, "Access denied - No token provided")
  else
    match verify (token?.getD "") with
    | none => .error (403, "Invalid or expired token")
    | some u => .ok u

/-- A Supabase Auth user (the fields the handlers read). -/
structure SbUser where
  id : String
  email : String
deriving DecidableEq, Repr

/-- A row of the `profiles` table. -/
structure ProfileRow where
  id : String
  name : String
  role : String
deriving DecidableEq, Repr

/-- A row of the Supabase `patients` table (the fields the auth handlers
read; `status` is the lifecycle status, `pending` or `active`). -/
structure SbPatient where
  id : JVal
  user_id : String
  status : String
deriving DecidableEq, Repr

/-- A Supabase Auth session: the signed-in user and its access token. -/
structure SbSession where
  user : SbUser
  access_token : String
deriving DecidableEq, Repr

/-- The external-auth environment: `signIn` abstracts
`auth.signInWithPassword`, `getUser` abstracts `auth.getUser(token)`, and
the `profiles` and `patients` tables are explicit. -/
structure SbEnv where
  signIn : String → String → Option SbSession
  getUser : String → Option SbUser
  profiles : List ProfileRow
  patients : List SbPatient

/-- The principal built by the Supabase auth middleware. -/
structure SbPrincipal where
  id : String
  email : String
  name : String
  role : String
  patientId : Option JVal
deriving DecidableEq, Repr

/-- `authenticateToken` of `middleware/auth.js` (Supabase variant): 401 when
no token, 403 `Invalid or expired token` when `getUser` rejects it, 403 when
the profile row is missing; for patients the linked patient-record id is
resolved, with no check of the patient's lifecycle status. -/
def sbAuthenticate (env : SbEnv) (token? : Option String) :
    Except (Nat × String) SbPrincipal :=
  if !strTruthy token? then .error (401, "Access denied - No token provided")
  else
    match env.getUser (token?.getD "") with
    | none => .error (403, "Invalid or expired token")
    | some u =>
      match env.profiles.find? (fun q => q.id = u.id) with
      | none => .error (403, "User profile not found")
      | some profile =>
        let patientId :=
          if profile.role = "patient" then
            (env.patients.find? (fun q => q.user_id = u.id)).map (fun q => q.id)
          else none
        .ok { id := u.id, email := u.email, name := profile.name,
              role := profile.role, patientId := patientId }

/-- The 200 payload of the Supabase login endpoint. -/
structure SbLoginOut where
  token : String
  id : String
  name : String
  email : String
  role : String
  patientId : Option JVal
deriving DecidableEq, Repr

/-- `POST /api/auth/login` (Supabase Auth variant): sign in through the
identity provider, 401 on rejection or missing profile; for a patient whose
linked record has status `pending`, answer 403
`Your account is pending doctor approval.` even though the credentials were
accepted. -/
def sbLogin (env : SbEnv) (email? password? : Option String) : ApiRes SbLoginOut :=
  if !strTruthy email? || !strTruthy password? then
    .err 400 "Email and password are required"
  else
    match env.signIn (email?.getD "") (password?.getD "") with
    | none => .err 401 "Invalid credentials"
    | some sess =>
      match env.profiles.find? (fun q => q.id = sess.user.id) with
      | none => .err 401 "User profile not found"
      | some profile =>
        if profile.role = "patient" then
          let patient? := env.patients.find? (fun q => q.user_id = sess.user.id)
          if (patient?.map (fun q => q.status)) = some "pending" then
            .err 403 "Your account is pending doctor approval."
          else
            .ok 200 { token := sess.access_token, id := sess.user.id,
                      name := profile.name, email := sess.user.email,
                      role := profile.role, patientId := patient?.map (fun q => q.id) }
        else
          .ok 200 { token := sess.access_token, id := sess.user.id,
                    name := profile.name, email := sess.user.email,
                    role := profile.role, patientId := none }

/-- The 200 payload of the Supabase verify endpoint. -/
structure SbVerifyOut where
  id : String
  email : String
  name : String
  role : String
  patientId : Option JVal
deriving DecidableEq, Repr

/-- `GET /api/auth/verify` (Supabase Auth variant): 401 without a token, 403
`Invalid token` when `getUser` rejects it; when the profile's role is
`patient` and the linked record is `pending`, answer the same 403 pending
rejection; a missing profile answers 403 afterwards. -/
def sbVerify (env : SbEnv) (token? : Option String) : ApiRes SbVerifyOut :=
  if !strTruthy token? then .err 401 "No token"
  else
    match env.getUser (token?.getD "") with
    | none => .err 403 "Invalid token"
    | some u =>
      let profile? := env.profiles.find? (fun q => q.id = u.id)
      let pendingHit :=
        (profile?.map (fun q => q.role)) = some "patient" ∧
          ((env.patients.find? (fun q => q.user_id = u.id)).map (fun q => q.status))
            = some "pending"
      if pendingHit then .err 403 "Your account is pending doctor approval."
      else
        match profile? with
        | none => .err 403 "User profile not found. Please contact your doctor."
        | some profile =>
          let patientId :=
            if profile.role = "patient" then
              (env.patients.find? (fun q => q.user_id = u.id)).map (fun q => q.id)
            else none
          .ok 200 { id := u.id, email := u.email, name := profile.name,
                    role := profile.role, patientId := patientId }

/-- `canAccessPatient` of `routes/diagnostics.js`: doctors always pass;
patients pass exactly when their own patient id is non-null and equal to the
target id after JavaScript `String(...)` coercion of both sides. -/
def canAccessPatient (user : Principal) (patientId : JVal) : Bool :=
  if user.role = "doctor" then true
  else
    match user.patientId with
    | none => false
    | some own => own.jsString = patientId.jsString

/-- A full patient record as read by `GET /patients/:id` (only the id is
inspected by the scoping check). -/
structure FullPatient where
  id : JVal
  user_id : Option Nat
  name : String
deriving DecidableEq, Repr

/-- `router.get('/:id')` of the patients router: 404 when the row is absent
(checked before any scoping), then a patient principal is refused with 403
unless `req.user.patientId !== patient.id` fails, i.e. unless the two ids are
strictly equal in the JavaScript sense. -/
def getPatientById (user : Principal) (patients : List FullPatient) (reqId : JVal) :
    ApiRes FullPatient :=
  match patients.find? (fun q => q.id = reqId) with
  | none => .err 404 "Patient not found"
  | some patient =>
    if user.role = "patient" ∧ ¬ strictEq user.patientId patient.id then
      .err 403 "Access denied"
    else
      .ok 200 patient

/-- A row of the `diagnostics` table. -/
structure DiagRow where
  id : Nat
  patient_id : String
  uploaded_by : String
  label : String
  file_name : String
  file_path : String
  file_size : Nat
  mime_type : String
  notes : Option String
deriving DecidableEq, Repr

/-- An uploaded file as multer presents it. -/
structure UploadFile where
  originalname : String
  size : Nat
  mimetype : String
deriving DecidableEq, Repr

/-- JavaScript `s.trim()`: strip leading and trailing whitespace. -/
def jsTrim (s : String) : String :=
  String.mk (((s.data.dropWhile Char.isWhitespace).reverse.dropWhile Char.isWhitespace).reverse)

/-- File-name sanitisation of the upload handler:
`originalname.replace(/[^a-zA-Z0-9._-]/g, '_')`. -/
def sanitizeName (s : String) : String :=
  String.mk (s.data.map (fun c =>
    if c.isAlphanum || c = '.' || c = '_' || c = '-' then c else '_'))

/-- The state the upload handler touches: the object-storage keys and the
`diagnostics` rows (with the next auto-increment id). -/
structure DiagState where
  storage : List String
  rows : List DiagRow
  nextId : Nat
deriving DecidableEq, Repr

/-- Whether the two external writes succeed, abstracting the storage client
and the database client responses. -/
structure DiagIo where
  uploadFails : Bool
  insertFails : Bool
deriving DecidableEq, Repr

/-- `router.post('/:patientId')` diagnostic upload (`routes/diagnostics.js`):
doctors only; a file and a non-blank label are required; the target patient
must exist; the blob is written under
`patientId/uuid-sanitizedName`; when the subsequent metadata insert fails the
handler removes the just-written blob before answering 500. -/
def uploadDiagnostic (user : Principal) (userId : String) (patientExists : Bool)
    (patientId : String) (file? : Option UploadFile) (label? notes? : Option String)
    (uuid : String) (io : DiagIo) (st : DiagState) : ApiRes DiagRow × DiagState :=
  if user.role ≠ "doctor" then (.err 403 "Access denied - Doctors only", st)
  else
    match file? with
    | none => (.err 400 "No file uploaded", st)
    | some file =>
      if !strTruthy label? || jsTrim (label?.getD "") = "" then
        (.err 400 "Label is required (e.g. Blood Test, X-Ray)", st)
      else if !patientExists then (.err 404 "Patient not found", st)
      else
        let safeName := sanitizeName file.originalname
        let filePath := patientId ++ "/" ++ uuid ++ "-" ++ safeName
        if io.uploadFails then (.err 500 "Failed to upload file to storage", st)
        else
          let storage1 := st.storage ++ [filePath]
          if io.insertFails then
            (.err 500 "Failed to upload diagnostic",
             { st with storage := storage1.erase filePath })
          else
            let row : DiagRow :=
              { id := st.nextId, patient_id := patientId, uploaded_by := userId,
                label := jsTrim (label?.getD ""), file_name := file.originalname,
                file_path := filePath, file_size := file.size,
                mime_type := file.mimetype,
                notes := if strTruthy notes? then some (jsTrim (notes?.getD "")) else none }
            (.ok 201 row,
             { storage := storage1, rows := st.rows ++ [row], nextId := st.nextId + 1 })

/-! ### Helper lemmas -/

/-- Null-coalescing a present SQL sum returns the sum itself. -/
theorem jsOrZero_some (x : ℚ) : jsOrZero (some x) = x := by
  unfold jsOrZero
  split <;> simp_all

/-- The null-coalesced SQL sum over one payment status equals the direct sum
over the rows carrying that status. -/
theorem jsOrZero_sqlSum (fees : List Fee) (st : String) :
    jsOrZero (sqlSumAmount fees st)
      = ((fees.filter (fun f => f.payment_status = st)).map (fun f => f.amount)).sum := by
  unfold sqlSumAmount
  cases h : (fees.filter (fun f => f.payment_status = st)).map (fun f => f.amount) with
  | nil => simp [h, jsOrZero]
  | cons a as => simp [h, jsOrZero_some]

/-! ### Claim theorems -/

/-- C6: for every list of fee rows, the revenue aggregator returns exactly
the sum of `amount` over the rows with payment status `paid` as
`totalRevenue` and the sum over the rows with status `pending` as
`pendingPayments`; on an empty table both are the number `0`. -/
theorem C6_revenue_aggregator (fees : List Fee) :
    revenueStats fees
      = (((fees.filter (fun f => f.payment_status = "paid")).map (fun f => f.amount)).sum,
         ((fees.filter (fun f => f.payment_status = "pending")).map (fun f => f.amount)).sum)
    ∧ revenueStats [] = (0, 0) := by
  constructor
  · unfold revenueStats
    rw [jsOrZero_sqlSum, jsOrZero_sqlSum]
  · rfl

/-- C4: for every patient-provisioning request by a doctor with name, age and
phone present, a duplicate account email is answered with the duplicate-email
conflict error and no user row is added; otherwise the handler succeeds, the
issued plaintext password is the last four characters of the phone plus the
fixed suffix `123`, the stored credential is the bcrypt hash of exactly that
password with work factor 10, and when no email was supplied the account
email is `phone@patient.com`. -/
theorem C4_credential_issuance (users : List UserRow) (nextUserId : Nat)
    (user : Principal) (body : AddPatientBody)
    (hrole : user.role = "doctor")
    (hname : strTruthy body.name = true) (hage : intTruthy body.age = true)
    (hphone : strTruthy body.phone = true) :
    (users.any (fun u => u.email = chosenPatientEmail body) = true →
        addPatient users nextUserId user body = (.err 400 "Email already exists", users))
    ∧ (users.any (fun u => u.email = chosenPatientEmail body) = false →
        ∃ out, addPatient users nextUserId user body = (.ok 201 out, users ++ [out.userRow])
          ∧ out.credsPassword = sliceLast4 (body.phone.getD "") ++ "123"
          ∧ out.userRow.password = HashVal.bcrypt out.credsPassword 10
          ∧ out.credsEmail = chosenPatientEmail body
          ∧ out.userRow.email = out.credsEmail
          ∧ (strTruthy body.email = false →
              out.credsEmail = body.phone.getD "" ++ "@patient.com")) := by
  constructor
  · intro hdup
    unfold addPatient
    simp [hrole, hname, hage, hphone, hdup]
  · intro hdup
    unfold addPatient
    simp only [hrole, hname, hage, hphone, hdup]
    refine ⟨{ userRow := { id := nextUserId, name := body.name.getD "",
                           email := chosenPatientEmail body,
                           password := .bcrypt (derivePassword (body.phone.getD "")) 10,
                           role := "patient" },
              credsEmail := chosenPatientEmail body,
              credsPassword := derivePassword (body.phone.getD "") },
            ?_, rfl, rfl, rfl, rfl, ?_⟩
    · simp
    · intro hemail
      unfold chosenPatientEmail
      simp [hemail]

/-- The conflict query finds a row exactly when some stored appointment has
the identical date and time and status exactly `scheduled`. -/
theorem slotTaken_iff (rows : List Appointment) (d t : String) :
    slotTaken rows d t = true
      ↔ ∃ a ∈ rows, a.date = d ∧ a.time = t ∧ a.status = "scheduled" := by
  unfold slotTaken
  rw [List.find?_isSome]
  constructor
  · rintro ⟨a, ha, hpred⟩
    simp only [Bool.and_eq_true, decide_eq_true_eq] at hpred
    exact ⟨a, ha, hpred.1.1, hpred.1.2, hpred.2⟩
  · rintro ⟨a, ha, h1, h2, h3⟩
    exact ⟨a, ha, by simp [h1, h2, h3]⟩

/-- A concrete doctor principal used to instantiate proved theorems. -/
def cDoctor : Principal := { role := "doctor", patientId := none }

/-- A concrete add-patient request: phone `9876543210`, no email supplied. -/
def cBody : AddPatientBody :=
  { name := some "Asha", age := some 30, phone := some "9876543210", email := none }

/-- C4 witness: instantiating the credential-issuance theorem on an empty
user table and phone `9876543210`; the derived password there is `3210123`. -/
theorem C4_credential_issuance_witness :
    ((([] : List UserRow).any (fun u => u.email = chosenPatientEmail cBody) = true →
        addPatient [] 1 cDoctor cBody = (.err 400 "Email already exists", []))
      ∧ (([] : List UserRow).any (fun u => u.email = chosenPatientEmail cBody) = false →
          ∃ out, addPatient [] 1 cDoctor cBody = (.ok 201 out, [] ++ [out.userRow])
            ∧ out.credsPassword = sliceLast4 (cBody.phone.getD "") ++ "123"
            ∧ out.userRow.password = HashVal.bcrypt out.credsPassword 10
            ∧ out.credsEmail = chosenPatientEmail cBody
            ∧ out.userRow.email = out.credsEmail
            ∧ (strTruthy cBody.email = false →
                out.credsEmail = cBody.phone.getD "" ++ "@patient.com")))
    ∧ derivePassword "9876543210" = "3210123" :=
  ⟨C4_credential_issuance [] 1 cDoctor cBody rfl (by decide) (by decide) (by decide), rfl⟩

/-- C1: for every appointment-creation request with date and time present
and a resolvable (truthy) target patient id, the handler answers 409 and
leaves the store unchanged exactly when some stored appointment occupies the
identical (date, time) slot with status exactly `scheduled`; otherwise it
succeeds, appends a row with default status `scheduled`, and returns the
created record. -/
theorem C1_appointment_slot_conflict (user : Principal) (body : ApptBody) (db : ApptDb)
    (hd : strTruthy body.date = true) (ht : strTruthy body.time = true)
    (hp : jvalTruthy (resolvePatientId user body) = true) :
    (createAppointment user body db
        = (.err 409 "This time slot is already booked. Please choose a different time.", db)
      ↔ ∃ a ∈ db.rows, a.date = body.date.getD "" ∧ a.time = body.time.getD ""
          ∧ a.status = "scheduled")
    ∧ ((¬ ∃ a ∈ db.rows, a.date = body.date.getD "" ∧ a.time = body.time.getD ""
          ∧ a.status = "scheduled") →
        ∃ appt, createAppointment user body db
            = (.ok 201 appt, { rows := db.rows ++ [appt], nextId := db.nextId + 1 })
          ∧ appt.status = "scheduled" ∧ appt.date = body.date.getD ""
          ∧ appt.time = body.time.getD "") := by
  obtain ⟨pid, hpid, htr⟩ : ∃ pid, resolvePatientId user body = some pid ∧ pid.truthy = true := by
    cases h : resolvePatientId user body with
    | none => rw [h] at hp; simp [jvalTruthy] at hp
    | some v => rw [h] at hp; exact ⟨v, rfl, hp⟩
  unfold createAppointment
  rw [hpid]
  simp only [hd, ht, htr, Bool.not_true, Bool.false_or, Bool.or_self, if_false,
    Bool.false_eq_true, not_false_eq_true, if_true]
  by_cases hc : slotTaken db.rows (body.date.getD "") (body.time.getD "") = true
  · rw [if_pos hc]
    refine ⟨⟨fun _ => (slotTaken_iff _ _ _).mp hc, fun _ => rfl⟩, fun habs => ?_⟩
    exact absurd ((slotTaken_iff _ _ _).mp hc) habs
  · rw [if_neg hc]
    constructor
    · constructor
      · intro heq
        exact absurd (congrArg Prod.fst heq) (by simp)
      · intro hex
        exact absurd ((slotTaken_iff _ _ _).mpr hex) hc
    · intro _
      exact ⟨_, rfl, rfl, rfl, rfl⟩

/-- A store holding one `scheduled` appointment at 2024-03-01 10:00. -/
def cSlotDb : ApptDb :=
  { rows := [{ id := 1, patient_id := .jnum 1, date := "2024-03-01", time := "10:00",
               reason := none, status := "scheduled" }], nextId := 2 }

/-- The same store after that appointment was cancelled. -/
def cCancelDb : ApptDb :=
  { rows := [{ id := 1, patient_id := .jnum 1, date := "2024-03-01", time := "10:00",
               reason := none, status := "cancelled" }], nextId := 2 }

/-- A booking request for the 2024-03-01 10:00 slot. -/
def cApptBody : ApptBody :=
  { patient_id := some (.jnum 1), date := some "2024-03-01", time := some "10:00",
    reason := none }

/-- C1 witness: booking the occupied slot answers 409 and changes nothing;
booking the same slot once the holder is `cancelled` succeeds. -/
theorem C1_appointment_slot_conflict_witness :
    createAppointment cDoctor cApptBody cSlotDb
      = (.err 409 "This time slot is already booked. Please choose a different time.", cSlotDb)
    ∧ ∃ appt, createAppointment cDoctor cApptBody cCancelDb
        = (.ok 201 appt, { rows := cCancelDb.rows ++ [appt], nextId := cCancelDb.nextId + 1 })
      ∧ appt.status = "scheduled" ∧ appt.date = cApptBody.date.getD ""
      ∧ appt.time = cApptBody.time.getD "" := by
  constructor
  · exact (C1_appointment_slot_conflict cDoctor cApptBody cSlotDb (by decide) (by decide)
      (by decide)).1.mpr
      ⟨{ id := 1, patient_id := .jnum 1, date := "2024-03-01", time := "10:00",
         reason := none, status := "scheduled" }, by decide⟩
  · exact (C1_appointment_slot_conflict cDoctor cApptBody cCancelDb (by decide) (by decide)
      (by decide)).2 (by decide)

/-- C8: for every appointment-creation request by a patient principal, the
body's `patient_id` is silently ignored (the outcome is identical for any
supplied value) and a created appointment always carries the principal's own
patient id; a doctor principal's request resolves to the explicitly supplied
body `patient_id`. -/
theorem C8_patient_books_self (user : Principal) (body : ApptBody) (db : ApptDb)
    (pid : Option JVal) :
    (user.role = "patient" →
        createAppointment user { body with patient_id := pid } db
          = createAppointment user body db
        ∧ (∀ a db2, createAppointment user body db = (.ok 201 a, db2) →
            some a.patient_id = user.patientId))
    ∧ (user.role = "doctor" → resolvePatientId user body = body.patient_id) := by
  constructor
  · intro hrole
    have hres : resolvePatientId user body = user.patientId := by
      simp [resolvePatientId, hrole]
    constructor
    · unfold createAppointment
      simp [resolvePatientId, hrole]
    · intro a db2 heq
      unfold createAppointment at heq
      rw [hres] at heq
      split at heq
      · exact absurd heq (by simp)
      · split at heq
        · exact absurd heq (by simp)
        next v hv =>
          dsimp only at heq
          split at heq
          · exact absurd heq (by simp)
          · rw [hv]
            split at heq
            · exact absurd heq (by simp)
            · have hfst := congrArg Prod.fst heq
              injection hfst with h201 hA
              rw [← hA]
  · intro hrole
    simp [resolvePatientId, hrole]

/-- A concrete patient principal whose own record id is 7. -/
def cPatient : Principal := { role := "patient", patientId := some (.jnum 7) }

/-- An empty appointments store. -/
def cEmptyDb : ApptDb := { rows := [], nextId := 1 }

/-- The appointment the empty store receives from `cPatient`'s booking. -/
def cCreated : Appointment :=
  { id := 1, patient_id := .jnum 7, date := "2024-03-01", time := "10:00",
    reason := none, status := "scheduled" }

/-- C8 witness: the patient principal books the same appointment whatever
`patient_id` the body smuggles in, and the created row carries their own id. -/
theorem C8_patient_books_self_witness :
    createAppointment cPatient { cApptBody with patient_id := some (.jnum 99) } cEmptyDb
      = createAppointment cPatient cApptBody cEmptyDb
    ∧ some cCreated.patient_id = cPatient.patientId := by
  have h := (C8_patient_books_self cPatient cApptBody cEmptyDb (some (.jnum 99))).1 rfl
  exact ⟨h.1, h.2 cCreated { rows := [cCreated], nextId := 2 } (by decide)⟩

/-- The status allow-list check of the status-update handler:
`['scheduled', 'completed', 'cancelled'].includes(status)` (false when the
body carries no status at all). -/
def validStatus : Option String → Bool
  | none => false
  | some s => s = "scheduled" || s = "completed" || s = "cancelled"

/-- Every stored appointment's status is one of the three allowed values. -/
def statusInvariant (db : ApptDb) : Prop :=
  ∀ a ∈ db.rows, a.status = "scheduled" ∨ a.status = "completed" ∨ a.status = "cancelled"

/-- Mapping a valid status over matching rows keeps every status valid. -/
theorem mem_update_rows {rows : List Appointment} {apptId : Nat} {st : String}
    (hinv : ∀ a ∈ rows, a.status = "scheduled" ∨ a.status = "completed" ∨ a.status = "cancelled")
    (hst : st = "scheduled" ∨ st = "completed" ∨ st = "cancelled") :
    ∀ a ∈ rows.map (fun a => if a.id = apptId then { a with status := st } else a),
      a.status = "scheduled" ∨ a.status = "completed" ∨ a.status = "cancelled" := by
  intro a ha
  rw [List.mem_map] at ha
  obtain ⟨b, hb, hba⟩ := ha
  by_cases h : b.id = apptId
  · rw [if_pos h] at hba
    rw [← hba]
    exact hst
  · rw [if_neg h] at hba
    rw [← hba]
    exact hinv b hb

/-- C9: a doctor's status-update request whose status is outside the
allow-list is answered 400 with the store untouched; and both the status
update and appointment creation preserve the invariant that every stored
status is `scheduled`, `completed` or `cancelled`. -/
theorem C9_status_update_validation (user : Principal) (st? : Option String)
    (apptId : Nat) (db : ApptDb)
    (hrole : user.role = "doctor") (hinv : statusInvariant db) :
    (validStatus st? = false →
        updateAppointmentStatus user st? apptId db = (.err 400 "Invalid status", db))
    ∧ statusInvariant (updateAppointmentStatus user st? apptId db).2
    ∧ (∀ u2 b2, statusInvariant (createAppointment u2 b2 db).2) := by
  refine ⟨?_, ?_, ?_⟩
  · intro hval
    unfold updateAppointmentStatus
    rw [if_neg (by simp [hrole])]
    cases st? with
    | none => rfl
    | some st =>
      simp only [validStatus, Bool.or_eq_false_iff, decide_eq_false_iff_not] at hval
      dsimp only
      rw [if_pos ⟨hval.1.1, hval.1.2, hval.2⟩]
  · unfold updateAppointmentStatus
    split
    · exact hinv
    · split
      · exact hinv
      next st =>
        split
        · exact hinv
        next hvalid =>
          have hst : st = "scheduled" ∨ st = "completed" ∨ st = "cancelled" := by
            tauto
          dsimp only
          split
          · exact mem_update_rows hinv hst
          · exact mem_update_rows hinv hst
  · intro u2 b2
    unfold createAppointment
    split
    · exact hinv
    · split
      · exact hinv
      · split
        · exact hinv
        · dsimp only
          split
          · exact hinv
          · intro a ha
            rw [List.mem_append] at ha
            rcases ha with h | h
            · exact hinv a h
            · rw [List.mem_singleton] at h
              rw [h]
              left
              rfl

/-- C9 witness: a bogus status `postponed` on a store holding one scheduled
appointment is rejected with 400 and the store is unchanged. -/
theorem C9_status_update_validation_witness :
    validStatus (some "postponed") = false
    ∧ updateAppointmentStatus cDoctor (some "postponed") 1 cSlotDb
        = (.err 400 "Invalid status", cSlotDb) := by
  have h := C9_status_update_validation cDoctor (some "postponed") 1 cSlotDb rfl
    (by unfold statusInvariant; decide)
  exact ⟨by decide, h.1 (by decide)⟩

/-- Erasing a freshly appended key restores the original key list. -/
theorem erase_append_self (a : String) (l : List String) (h : a ∉ l) :
    (l ++ [a]).erase a = l := by
  induction l with
  | nil => simp
  | cons b bs ih =>
    simp only [List.mem_cons, not_or] at h
    rw [List.cons_append, List.erase_cons,
      if_neg (by simp only [beq_iff_eq]; exact fun hba => h.1 hba.symm)]
    rw [ih h.2]

/-- C5: for every diagnostic upload where the blob write succeeds and the
metadata insert fails, the handler answers with an error, the storage is
exactly as before the upload (the fresh blob was removed, no orphan), and no
diagnostic row references the blob's key. -/
theorem C5_compensating_delete (user : Principal) (userId : String) (pid : String)
    (file : UploadFile) (label? notes? : Option String) (uuid : String) (st : DiagState)
    (hrole : user.role = "doctor")
    (hlabel : strTruthy label? = true) (hlabelTrim : jsTrim (label?.getD "") ≠ "")
    (hfreshStorage : (pid ++ "/" ++ uuid ++ "-" ++ sanitizeName file.originalname) ∉ st.storage)
    (hfreshRows : ∀ row ∈ st.rows,
        row.file_path ≠ pid ++ "/" ++ uuid ++ "-" ++ sanitizeName file.originalname) :
    (uploadDiagnostic user userId true pid (some file) label? notes? uuid
        { uploadFails := false, insertFails := true } st).1
      = .err 500 "Failed to upload diagnostic"
    ∧ (uploadDiagnostic user userId true pid (some file) label? notes? uuid
        { uploadFails := false, insertFails := true } st).2.storage = st.storage
    ∧ (uploadDiagnostic user userId true pid (some file) label? notes? uuid
        { uploadFails := false, insertFails := true } st).2.rows = st.rows
    ∧ (pid ++ "/" ++ uuid ++ "-" ++ sanitizeName file.originalname)
        ∉ (uploadDiagnostic user userId true pid (some file) label? notes? uuid
            { uploadFails := false, insertFails := true } st).2.storage
    ∧ ∀ row ∈ (uploadDiagnostic user userId true pid (some file) label? notes? uuid
          { uploadFails := false, insertFails := true } st).2.rows,
        row.file_path ≠ pid ++ "/" ++ uuid ++ "-" ++ sanitizeName file.originalname := by
  have key : uploadDiagnostic user userId true pid (some file) label? notes? uuid
      { uploadFails := false, insertFails := true } st
      = (.err 500 "Failed to upload diagnostic",
         { st with storage := List.erase (st.storage ++ [pid ++ "/" ++ uuid ++ "-" ++ sanitizeName file.originalname]) (pid ++ "/" ++ uuid ++ "-" ++ sanitizeName file.originalname) }) := by
    unfold uploadDiagnostic
    simp [hrole, hlabel, hlabelTrim]
  rw [key]
  have herase := erase_append_self _ _ hfreshStorage
  exact ⟨rfl, herase, rfl, by rw [herase]; exact hfreshStorage, hfreshRows⟩

/-- A concrete uploaded file whose name needs sanitising. -/
def cFile : UploadFile :=
  { originalname := "scan 1.pdf", size := 1234, mimetype := "application/pdf" }

/-- An empty diagnostics state. -/
def cDiagState : DiagState := { storage := [], rows := [], nextId := 1 }

/-- The failure injection: blob write succeeds, metadata insert fails. -/
def cDiagIo : DiagIo := { uploadFails := false, insertFails := true }

/-- C5 witness: blob `3/uuid1-scan_1.pdf` written to an empty store, insert
forced to fail; afterwards the storage and the rows are both untouched. -/
theorem C5_compensating_delete_witness :
    (uploadDiagnostic cDoctor "doc1" true "3" (some cFile) (some "X-Ray") none "uuid1"
        cDiagIo cDiagState).1 = .err 500 "Failed to upload diagnostic"
    ∧ (uploadDiagnostic cDoctor "doc1" true "3" (some cFile) (some "X-Ray") none "uuid1"
        cDiagIo cDiagState).2.storage = [] := by
  have h := C5_compensating_delete cDoctor "doc1" "3" cFile (some "X-Ray") none "uuid1"
    cDiagState rfl (by decide) (by decide) (by decide) (by decide)
  exact ⟨h.1, h.2.1⟩

/-- C10: the custom-JWT login succeeds only when a stored user matches both
the supplied email and exactly the supplied role with a verifying password;
an email whose user carries a different role is answered with the very same
401 `Invalid credentials` value as a wrong password, so the response
distinguishes neither whether the email exists nor which field was wrong. -/
theorem C10_login_role_indistinguishable (users : List UserRow)
    (patients : List PatientRow) (email pw role : String)
    (he : email ≠ "") (hp : pw ≠ "") (hr : role ≠ "") :
    (∀ out, sqLogin users patients (some email) (some pw) (some role) = .ok 200 out →
        ∃ u ∈ users, u.email = email ∧ u.role = role ∧ bcryptCompare pw u.password = true)
    ∧ ((∀ u ∈ users, u.email = email → u.role ≠ role) →
        sqLogin users patients (some email) (some pw) (some role)
          = .err 401 "Invalid credentials")
    ∧ (∀ u, users.find? (fun q => q.email = email && q.role = role) = some u →
        bcryptCompare pw u.password = false →
        sqLogin users patients (some email) (some pw) (some role)
          = .err 401 "Invalid credentials") := by
  have hcond : (!strTruthy (some email) || !strTruthy (some pw) || !strTruthy (some role))
      = false := by
    simp [strTruthy, he, hp, hr]
  refine ⟨?_, ?_, ?_⟩
  · intro out heq
    unfold sqLogin at heq
    rw [hcond] at heq
    simp only [Bool.false_eq_true, if_false] at heq
    cases hfind : users.find? (fun q => q.email = (some email).getD ""
        && q.role = (some role).getD "") with
    | none =>
      rw [hfind] at heq
      exact absurd heq (by simp)
    | some u =>
      rw [hfind] at heq
      dsimp only at heq
      have hmem := List.mem_of_find?_eq_some hfind
      have hpred := List.find?_some hfind
      simp only [Option.getD_some, Bool.and_eq_true, decide_eq_true_eq] at hpred
      refine ⟨u, hmem, hpred.1, hpred.2, ?_⟩
      cases hbv : bcryptCompare ((some pw).getD "") u.password with
      | false =>
        rw [hbv] at heq
        simp at heq
      | true => exact hbv
  · intro hmis
    have hfind : users.find? (fun q => q.email = (some email).getD ""
        && q.role = (some role).getD "") = none := by
      rw [List.find?_eq_none]
      intro u hu
      simp only [Option.getD_some, Bool.and_eq_true, decide_eq_true_eq, not_and]
      exact fun hmail => hmis u hu hmail
    unfold sqLogin
    rw [hcond]
    simp only [Bool.false_eq_true, if_false]
    rw [hfind]
  · intro u hfind hb
    unfold sqLogin
    rw [hcond]
    simp only [Bool.false_eq_true, if_false, Option.getD_some]
    rw [hfind]
    dsimp only
    rw [if_pos (by rw [hb]; rfl)]

/-- A user table holding one doctor with password `secret`. -/
def cUsers : List UserRow :=
  [{ id := 1, name := "Dr", email := "d@x.com", password := .bcrypt "secret" 10,
     role := "doctor" }]

/-- C10 witness: correct email and password with the wrong role, and correct
email and role with the wrong password, yield the identical 401 response. -/
theorem C10_login_role_indistinguishable_witness :
    sqLogin cUsers [] (some "d@x.com") (some "secret") (some "patient")
      = .err 401 "Invalid credentials"
    ∧ sqLogin cUsers [] (some "d@x.com") (some "wrong") (some "doctor")
      = .err 401 "Invalid credentials" :=
  ⟨(C10_login_role_indistinguishable cUsers [] "d@x.com" "secret" "patient"
      (by decide) (by decide) (by decide)).2.1 (by decide),
   (C10_login_role_indistinguishable cUsers [] "d@x.com" "wrong" "doctor"
      (by decide) (by decide) (by decide)).2.2
     { id := 1, name := "Dr", email := "d@x.com", password := .bcrypt "secret" 10,
       role := "doctor" } (by decide) (by decide)⟩

/-- C7 (amended): in both token-middleware variants a present but rejected
credential is answered with HTTP 403 `Invalid or expired token`, while the
401 status is used for the missing-credential case. -/
theorem C7_invalid_token_http_status (verify : String → Option Principal)
    (env : SbEnv) (t : String)
    (ht : t ≠ "") (hjwt : verify t = none) (hsb : env.getUser t = none) :
    jwtAuthenticate verify (some t) = .error (403, "Invalid or expired token")
    ∧ sbAuthenticate env (some t) = .error (403, "Invalid or expired token")
    ∧ jwtAuthenticate verify none = .error (401, "Access denied - No token provided")
    ∧ sbAuthenticate env none = .error (401, "Access denied - No token provided") := by
  refine ⟨?_, ?_, rfl, rfl⟩
  · unfold jwtAuthenticate
    rw [if_neg (by simp [strTruthy, ht])]
    rw [show (some t).getD "" = t from rfl, hjwt]
  · unfold sbAuthenticate
    rw [if_neg (by simp [strTruthy, ht])]
    rw [show (some t).getD "" = t from rfl, hsb]

/-- A token verifier that rejects every token. -/
def noVerify : String → Option Principal := fun _ => none

/-- An external-auth environment that rejects every token. -/
def cEnvReject : SbEnv :=
  { signIn := fun _ _ => none, getUser := fun _ => none, profiles := [], patients := [] }

/-- The HTTP status a gate rejection carries. -/
def gateStatus {α : Type} : Except (Nat × String) α → Option Nat
  | .error e => some e.1
  | .ok _ => none

/-- C7 counterexample: a present but invalid bearer token is answered with
status 403, not the claimed 401, in both middleware variants. -/
theorem C7_counterexample :
    gateStatus (jwtAuthenticate noVerify (some "bad")) = some 403
    ∧ gateStatus (sbAuthenticate cEnvReject (some "bad")) = some 403
    ∧ gateStatus (jwtAuthenticate noVerify (some "bad")) ≠ some 401
    ∧ gateStatus (sbAuthenticate cEnvReject (some "bad")) ≠ some 401 :=
  ⟨rfl, rfl, by decide, by decide⟩

/-- C7 witness: the amended statement instantiated on the all-rejecting
verifier and environment with the concrete token `bad`. -/
theorem C7_invalid_token_http_status_witness :
    jwtAuthenticate noVerify (some "bad") = .error (403, "Invalid or expired token")
    ∧ sbAuthenticate cEnvReject (some "bad") = .error (403, "Invalid or expired token")
    ∧ jwtAuthenticate noVerify none = .error (401, "Access denied - No token provided")
    ∧ sbAuthenticate cEnvReject none = .error (401, "Access denied - No token provided") :=
  C7_invalid_token_http_status noVerify cEnvReject "bad" (by decide) rfl rfl

/-- C2 (amended): in the external-auth variant both login and verify answer
403 `Your account is pending doctor approval.` for a patient principal whose
linked record has lifecycle status `pending`, even though the credentials or
the bearer token are accepted by the identity provider. -/
theorem C2_pending_login_verify_rejected (env : SbEnv) (email pw token : String)
    (sess : SbSession) (u : SbUser) (prof : ProfileRow) (pat : SbPatient)
    (he : email ≠ "") (hp : pw ≠ "") (ht : token ≠ "")
    (hsign : env.signIn email pw = some sess)
    (hprof : env.profiles.find? (fun q => q.id = sess.user.id) = some prof)
    (hrole : prof.role = "patient")
    (hpat : env.patients.find? (fun q => q.user_id = sess.user.id) = some pat)
    (hpend : pat.status = "pending")
    (hget : env.getUser token = some u) (hu : u.id = sess.user.id) :
    sbLogin env (some email) (some pw)
      = .err 403 "Your account is pending doctor approval."
    ∧ sbVerify env (some token)
      = .err 403 "Your account is pending doctor approval." := by
  constructor
  · unfold sbLogin
    rw [if_neg (by simp [strTruthy, he, hp])]
    rw [show (some email).getD "" = email from rfl, show (some pw).getD "" = pw from rfl]
    rw [hsign]
    try dsimp only
    rw [hprof]
    try dsimp only
    rw [if_pos hrole, hpat]
    try dsimp only
    rw [if_pos (by simp [hpend])]
  · unfold sbVerify
    rw [if_neg (by simp [strTruthy, ht])]
    rw [show (some token).getD "" = token from rfl]
    rw [hget]
    try dsimp only
    rw [hu, hprof, hpat]
    try dsimp only
    rw [if_pos ⟨by simp [hrole], by simp [hpend]⟩]

/-- An external-auth environment holding one patient whose lifecycle status
is `pending`, with working credentials and a valid token. -/
def cEnvPend : SbEnv :=
  { signIn := fun e p =>
      if e = "pat@x.com" && p = "pw" then
        some { user := { id := "u1", email := "pat@x.com" }, access_token := "tok" }
      else none,
    getUser := fun t =>
      if t = "tok" then some { id := "u1", email := "pat@x.com" } else none,
    profiles := [{ id := "u1", name := "Pat", role := "patient" }],
    patients := [{ id := .jnum 7, user_id := "u1", status := "pending" }] }

/-- C2 counterexample: although login rejects the pending patient, the
per-request middleware accepts the same patient's valid token and resolves a
usable principal, so an access token does grant a pending patient access to
the other endpoints, contrary to the claim. -/
theorem C2_counterexample :
    cEnvPend.patients.map (fun q => q.status) = ["pending"]
    ∧ sbLogin cEnvPend (some "pat@x.com") (some "pw")
        = .err 403 "Your account is pending doctor approval."
    ∧ sbAuthenticate cEnvPend (some "tok")
        = .ok { id := "u1", email := "pat@x.com", name := "Pat", role := "patient",
                patientId := some (.jnum 7) } :=
  ⟨rfl, by decide, rfl⟩

/-- C2 witness: the amended statement instantiated on the concrete pending
environment. -/
theorem C2_pending_login_verify_rejected_witness :
    sbLogin cEnvPend (some "pat@x.com") (some "pw")
      = .err 403 "Your account is pending doctor approval."
    ∧ sbVerify cEnvPend (some "tok")
      = .err 403 "Your account is pending doctor approval." :=
  C2_pending_login_verify_rejected cEnvPend "pat@x.com" "pw" "tok"
    { user := { id := "u1", email := "pat@x.com" }, access_token := "tok" }
    { id := "u1", email := "pat@x.com" }
    { id := "u1", name := "Pat", role := "patient" }
    { id := .jnum 7, user_id := "u1", status := "pending" }
    (by decide) (by decide) (by decide) (by decide) (by decide) rfl (by decide) rfl
    (by decide) rfl

/-- `router.get('/:patientId')` of the diagnostics router: the scoping helper
`canAccessPatient` is applied before the read, a refused principal receiving
403; the URL parameter arrives as a string. -/
def listDiagnostics (user : Principal) (rows : List DiagRow) (patientId : String) :
    ApiRes (List DiagRow) :=
  if !canAccessPatient user (.jstr patientId) then .err 403 "Access denied"
  else .ok 200 (rows.filter (fun r => r.patient_id = patientId))

/-- C3 (amended): `canAccessPatient` grants every doctor, and grants a
patient exactly when their own id is non-null and equals the target id after
canonical `String(...)` coercion — a comparison insensitive to whether the
two ids arrive as string or number; the diagnostics list route applies this
predicate before its read; but the patients single-record route instead
applies JavaScript strict equality to the two raw ids, which additionally
rejects a matching id that arrives with the other runtime type. -/
theorem C3_access_scoping (user : Principal) (pid : JVal) (s : String) (n : Int)
    (pstr : String) (rows : List DiagRow) (patients : List FullPatient) (reqId : JVal)
    (hsn : s = toString n) :
    (user.role = "doctor" → canAccessPatient user pid = true)
    ∧ (user.role = "patient" →
        (canAccessPatient user pid = true ↔
          ∃ own, user.patientId = some own ∧ own.jsString = pid.jsString))
    ∧ canAccessPatient user (.jstr s) = canAccessPatient user (.jnum n)
    ∧ ((canAccessPatient user (.jstr pstr) = false →
          listDiagnostics user rows pstr = .err 403 "Access denied")
        ∧ (canAccessPatient user (.jstr pstr) = true →
          listDiagnostics user rows pstr
            = .ok 200 (rows.filter (fun r => r.patient_id = pstr))))
    ∧ (∀ patient, patients.find? (fun q => q.id = reqId) = some patient →
        user.role = "patient" →
        (strictEq user.patientId patient.id = true →
            getPatientById user patients reqId = .ok 200 patient)
        ∧ (strictEq user.patientId patient.id = false →
            getPatientById user patients reqId = .err 403 "Access denied")) := by
  refine ⟨?_, ?_, ?_, ⟨?_, ?_⟩, ?_⟩
  · intro hrole
    simp [canAccessPatient, hrole]
  · intro hrole
    unfold canAccessPatient
    rw [if_neg (by rw [hrole]; decide)]
    cases h : user.patientId with
    | none => simp
    | some own => simp
  · unfold canAccessPatient
    by_cases hrole : user.role = "doctor"
    · rw [if_pos hrole, if_pos hrole]
    · rw [if_neg hrole, if_neg hrole]
      cases h : user.patientId with
      | none => rfl
      | some own => simp [JVal.jsString, hsn]
  · intro hdeny
    unfold listDiagnostics
    rw [hdeny]
    rfl
  · intro hgrant
    unfold listDiagnostics
    rw [hgrant]
    rfl
  · intro patient hfind hrole
    constructor
    · intro hstrict
      unfold getPatientById
      rw [hfind]
      dsimp only
      rw [if_neg (by rw [hstrict]; simp)]
    · intro hstrict
      unfold getPatientById
      rw [hfind]
      dsimp only
      rw [if_pos ⟨hrole, by rw [hstrict]; simp⟩]

/-- C3 counterexample: a patient whose token id arrived as the string `"5"`
requesting the record whose id is the number `5`: the canonical predicate
grants the access, yet the patients single-record route answers 403, so the
route does not apply the canonical predicate and its comparison depends on
the ids' runtime types. -/
theorem C3_counterexample :
    canAccessPatient { role := "patient", patientId := some (.jstr "5") } (.jnum 5) = true
    ∧ getPatientById { role := "patient", patientId := some (.jstr "5") }
        [{ id := .jnum 5, user_id := none, name := "Asha" }] (.jnum 5)
        = .err 403 "Access denied" :=
  ⟨by decide, by decide⟩

/-- C3 witness: the amended statement exercised concretely — a doctor is
always granted, the diagnostics list obeys the canonical predicate, and the
patients route grants the strictly equal id. -/
theorem C3_access_scoping_witness :
    canAccessPatient cDoctor (.jnum 5) = true
    ∧ listDiagnostics cPatient [] "7" = .ok 200 []
    ∧ getPatientById cPatient [{ id := .jnum 7, user_id := none, name := "Asha" }] (.jnum 7)
        = .ok 200 { id := .jnum 7, user_id := none, name := "Asha" } := by
  refine ⟨(C3_access_scoping cDoctor (.jnum 5) "5" 5 "5" [] [] (.jnum 5) rfl).1 rfl, ?_, ?_⟩
  · exact (C3_access_scoping cPatient (.jnum 7) "7" 7 "7" [] [] (.jnum 7) rfl).2.2.2.1.2
      (by decide)
  · exact ((C3_access_scoping cPatient (.jnum 7) "7" 7 "7" []
      [{ id := .jnum 7, user_id := none, name := "Asha" }] (.jnum 7) rfl).2.2.2.2
      { id := .jnum 7, user_id := none, name := "Asha" } (by decide) rfl).1 (by decide)

end Hospital
